import Mathlib

/-!
Shallow embedding of `cavatica_airflow_plugins` (three Airflow plugin classes:
`CavaticaTaskSensor`, `CavaticaStorageExportOperator`,
`CavaticaStorageImportOperator`).

The HTTP transport, the credential store and the JSON bodies returned by the
remote API are external collaborators; they are modelled as explicit "world"
records passed to each operation.  Each operation returns, besides its result,
the updated object state (Python attribute assignment is modelled by state
passing) and the list of HTTP requests it issued.
-/

/-- Minimal JSON value model for request payloads and response bodies. -/
inductive JValue where
  | null : JValue
  | bool (b : Bool) : JValue
  | num (n : Int) : JValue
  | str (s : String) : JValue
  | arr (xs : List JValue) : JValue
  | obj (fields : List (String × JValue)) : JValue
deriving Repr

/-- Error taxonomy of the plugins.

`headerBuild`, `responseParse` and `jobFailed` are the `AirflowException`s
raised by `cavatica_sensor.py` (messages abstracted to the part that does not
contain the interpolated task id); `transport` is the `requests.HTTPError`
raised by `response.raise_for_status()`; `nameError` is a Python `NameError`
raised when a bare identifier resolves in no enclosing scope. -/
inductive Err where
  | headerBuild (msg : String) : Err
  | transport : Err
  | responseParse (msg : String) : Err
  | jobFailed (reason : String) : Err
  | nameError (name : String) : Err
deriving Repr, DecidableEq

/-- Outcome of resolving one job-status string (spec's `PollOutcome`). -/
inductive PollOutcome where
  | stillRunning : PollOutcome
  | succeeded : PollOutcome
  | failed (reason : String) : PollOutcome
deriving Repr, DecidableEq

/-- One HTTP request as issued by an `HttpHook`. -/
structure HttpRequest where
  method : String
  path : String
  headers : List (String × String)
deriving Repr, DecidableEq

/-- One HTTP response supplied by the environment. `ok = false` makes
`raise_for_status()` raise; `body = none` models a body that is not valid
JSON. -/
structure HttpResponse where
  ok : Bool
  body : Option JValue
deriving Repr

/-- Environment of a single `poke`: the credential store's answer for the
connection name (`BaseHook.get_connection(...).get_password()`, `.error`
models the lookup throwing) and the response to the status GET. -/
structure PokeWorld where
  credential : Except String String
  response : HttpResponse
deriving Repr

/-- `cavatica_sensor.py`, lines 50-63: the four attributes stored by
`CavaticaTaskSensor.__init__`. -/
structure CavaticaTaskSensor where
  cavatica_task_id : String
  cavatica_conn_id : String
  cavatica_headers : List (String × String)
  endpoint : String
deriving Repr, DecidableEq

/-- Python `endpoint.endswith('/')` (a one-character suffix test: true iff the
last character is `'/'`). -/
def endsWithSlash (s : String) : Bool :=
  s.data.getLast? == some '/'

/-- `cavatica_sensor.py`, line 63: `__init__` keeps `endpoint` as given when it
already ends in `'/'` and appends `'/'` otherwise.  Lines 60-62 store the other
three arguments unchanged. -/
def CavaticaTaskSensor.init (cavatica_task_id cavatica_conn_id : String)
    (cavatica_headers : List (String × String)) (endpoint : String) :
    CavaticaTaskSensor :=
  { cavatica_task_id := cavatica_task_id
    cavatica_conn_id := cavatica_conn_id
    cavatica_headers := cavatica_headers
    endpoint := if endsWithSlash endpoint then endpoint else endpoint ++ "/" }

/-- `cavatica_sensor.py`, lines 65-76 (`_build_headers`): on a successful
credential lookup return the two-entry header dict; when the lookup throws,
wrap the error into an `AirflowException` (modelled as `Err.headerBuild`). -/
def buildHeaders (credential : Except String String) :
    Except Err (List (String × String)) :=
  match credential with
  | .ok token =>
      .ok [("Content-Type", "application/json"), ("X-SBG-Auth-Token", token)]
  | .error err =>
      .error (.headerBuild
        ("Unable to generate headers using the cavatica_conn_id: " ++ err))

/-- `cavatica_sensor.py`, lines 94-100: `response.json()["status"]` must yield
a string (any failure — invalid JSON, non-object body, missing field,
non-string field — is caught and becomes the parse error). -/
def extractStatus (body : Option JValue) : Option String :=
  match body with
  | some (.obj fields) =>
      match fields.lookup "status" with
      | some (.str s) => some s
      | _ => none
  | _ => none

/-- `cavatica_sensor.py`, lines 102-118: the status dispatch of `poke`, taking
the already upper-cased status string.  Failure reasons are abstracted to the
distinguishing phrase of the raised `AirflowException`'s message (the message
also interpolates the task id, elided here). -/
def classifyStatus (status : String) : PollOutcome :=
  if ["QUEUED", "RUNNING"].contains status then .stillRunning
  else if status == "COMPLETED" then .succeeded
  else if status == "PENDING" then .failed "pending and needs to be started"
  else if ["ABORTED", "FAILED"].contains status then .failed "did not finish"
  else .failed "unhandled job state"

/-- Python `str.upper()` on the status string, character by character
(`Char.toUpper`, the basic-latin case map).  Equal to `String.toUpper`
(see `pyUpper_eq_toUpper`); spelled over `data` so that it reduces. -/
def pyUpper (s : String) : String :=
  ⟨s.data.map Char.toUpper⟩

/-- The status resolution applied to a raw status string: line 96 upper-cases
(`response_json["status"].upper()`), lines 102-118 dispatch. -/
def resolve (rawStatus : String) : PollOutcome :=
  classifyStatus (pyUpper rawStatus)

/-- Result of one `poke`: the Python return value or raised exception, the
sensor state after the call (attribute assignment modelled by state passing),
and the HTTP requests issued during the call. -/
structure PokeResult where
  outcome : Except Err Bool
  sensor : CavaticaTaskSensor
  issued : List HttpRequest
deriving Repr

/-- `cavatica_sensor.py`, lines 90-118: the part of `poke` after the headers
are in place — one GET to `f'{self.endpoint}{self.cavatica_task_id}'`,
`raise_for_status`, status extraction, status dispatch. -/
def pokeWithHeaders (s : CavaticaTaskSensor) (w : PokeWorld) : PokeResult :=
  let req : HttpRequest :=
    { method := "GET"
      path := s.endpoint ++ s.cavatica_task_id
      headers := s.cavatica_headers }
  if !w.response.ok then
    { outcome := .error .transport, sensor := s, issued := [req] }
  else
    match extractStatus w.response.body with
    | none =>
        { outcome := .error (.responseParse "Unable to parse Cavatica API response")
          sensor := s
          issued := [req] }
    | some raw =>
        match resolve raw with
        | .stillRunning => { outcome := .ok false, sensor := s, issued := [req] }
        | .succeeded => { outcome := .ok true, sensor := s, issued := [req] }
        | .failed reason =>
            { outcome := .error (.jobFailed reason), sensor := s, issued := [req] }

/-- `cavatica_sensor.py`, lines 78-118 (`poke`): lines 87-88 lazily build the
headers when the stored dict is empty (Python falsiness of `{}`); a failing
build raises before any HTTP activity.  Then the GET/dispatch part runs. -/
def CavaticaTaskSensor.poke (s : CavaticaTaskSensor) (w : PokeWorld) : PokeResult :=
  if s.cavatica_headers.isEmpty then
    match buildHeaders w.credential with
    | .error e => { outcome := .error e, sensor := s, issued := [] }
    | .ok hs => pokeWithHeaders { s with cavatica_headers := hs } w
  else pokeWithHeaders s w

/-- Python `payload[key] = value` on a dict: replace the value in place when
the key is present (insertion position preserved), append the pair
otherwise. -/
def dictSet (d : List (String × JValue)) (k : String) (v : JValue) :
    List (String × JValue) :=
  if d.any (fun p => p.1 == k) then
    d.map (fun p => if p.1 == k then (p.1, v) else p)
  else d ++ [(k, v)]

/-- Overlay of the `optional_fields` dict onto a payload dict:
`cavatica_storage_export_operator.py` lines 207-209 /
`cavatica_storage_import_operator.py` lines 315-317
(`for key in self.optional_fields.keys(): payload[key] = ...`), guarded by
`if self.optional_fields:` (Python falsiness of the empty dict). -/
def overlayOptional (payload optional_fields : List (String × JValue)) :
    List (String × JValue) :=
  if optional_fields.isEmpty then payload
  else optional_fields.foldl (fun acc kv => dictSet acc kv.1 kv.2) payload

/-- `cavatica_storage_export_operator.py`, lines 176-192: the six attributes
stored by `CavaticaStorageExportOperator.__init__`. -/
structure CavaticaStorageExportOperator where
  cavatica_conn_id : String
  cavatica_headers : List (String × String)
  source_file_uri : String
  destination_volume : String
  destination_location : String
  optional_fields : List (String × JValue)
deriving Repr

/-- `cavatica_storage_import_operator.py`, lines 284-300: the six attributes
stored by `CavaticaStorageImportOperator.__init__`. -/
structure CavaticaStorageImportOperator where
  cavatica_conn_id : String
  cavatica_headers : List (String × String)
  destination_parent_uri : String
  source_volume : String
  source_location : String
  optional_fields : List (String × JValue)
deriving Repr

/-- `cavatica_storage_export_operator.py`, lines 197-209: the export request
payload — required nested `source`/`destination` objects, then the
optional-fields overlay. -/
def CavaticaStorageExportOperator.payload (self : CavaticaStorageExportOperator) :
    List (String × JValue) :=
  overlayOptional
    [("source", .obj [("file", .str self.source_file_uri)]),
     ("destination", .obj [("volume", .str self.destination_volume),
                           ("location", .str self.destination_location)])]
    self.optional_fields

/-- `cavatica_storage_import_operator.py`, lines 305-317: the import request
payload — required nested `source`/`destination` objects, then the
optional-fields overlay. -/
def CavaticaStorageImportOperator.payload (self : CavaticaStorageImportOperator) :
    List (String × JValue) :=
  overlayOptional
    [("source", .obj [("volume", .str self.source_volume),
                      ("location", .str self.source_location)]),
     ("destination", .obj [("parent", .str self.destination_parent_uri)])]
    self.optional_fields

/-- Evaluation of the bare identifier `endpoint` inside
`CavaticaStorageExportOperator.execute` (line 212) and
`CavaticaStorageImportOperator.execute` (line 320).  Python resolves a bare
name through the local, enclosing, global and builtin scopes only — the class
body (where `endpoint = '/storage/exports'` / `'/storage/imports'` is defined)
is not part of that chain, and no `endpoint` exists in any of those scopes, so
the evaluation raises `NameError: name 'endpoint' is not defined`. -/
def bareEndpointLookup : Except Err String :=
  .error (.nameError "endpoint")

/-- Environment of one `execute`: the response to the job-start POST, the
responses available to the poll loop (one per scheduler tick) and the response
to the import variant's final result GET. -/
structure ExecWorld where
  postResponse : HttpResponse
  pollWorlds : List PokeWorld
  resultResponse : HttpResponse
deriving Repr

/-- Result of `CavaticaStorageExportOperator.execute`: Python return value or
raised exception, the operator state after the call, the payload dict that was
assembled before the crash point, and the HTTP requests issued. -/
structure ExportExecResult where
  outcome : Except Err Unit
  op : CavaticaStorageExportOperator
  payloadBuilt : List (String × JValue)
  issued : List HttpRequest
deriving Repr

/-- Result of `CavaticaStorageImportOperator.execute` (returns
`response.json()["result"]["id"]` on success). -/
structure ImportExecResult where
  outcome : Except Err String
  op : CavaticaStorageImportOperator
  payloadBuilt : List (String × JValue)
  issued : List HttpRequest
deriving Repr

/-- `cavatica_storage_export_operator.py`, lines 194-226 (`execute`): the
payload is assembled (lines 197-209), then line 212 evaluates the POST
arguments; evaluating the bare name `endpoint` raises `NameError` before any
request is issued, so lines 212-226 (POST, `raise_for_status`, id extraction,
sensor construction with `endpoint='{endpoint}/'`, `poke=10`, `timeout=3600`,
and the poll loop) are unreachable.  `execute` never assigns any `self`
attribute, so the operator state passes through unchanged. -/
def CavaticaStorageExportOperator.execute (self : CavaticaStorageExportOperator)
    (w : ExecWorld) : ExportExecResult :=
  let payload := self.payload
  match w, bareEndpointLookup with
  | _, .error e =>
      { outcome := .error e, op := self, payloadBuilt := payload, issued := [] }
  | _, .ok _ =>
      -- unreachable: `bareEndpointLookup` always errors
      { outcome := .error (.nameError "endpoint"), op := self
        payloadBuilt := payload, issued := [] }

/-- `cavatica_storage_import_operator.py`, lines 302-340 (`execute`): the
payload is assembled (lines 305-317), then line 320 evaluates the POST
arguments; evaluating the bare name `endpoint` raises `NameError` before any
request is issued, so lines 320-340 (POST, `raise_for_status`, id extraction,
sensor construction, poll loop, final GET and `result.id` extraction) are
unreachable.  `execute` never assigns any `self` attribute. -/
def CavaticaStorageImportOperator.execute (self : CavaticaStorageImportOperator)
    (w : ExecWorld) : ImportExecResult :=
  let payload := self.payload
  match w, bareEndpointLookup with
  | _, .error e =>
      { outcome := .error e, op := self, payloadBuilt := payload, issued := [] }
  | _, .ok _ =>
      -- unreachable: `bareEndpointLookup` always errors
      { outcome := .error (.nameError "endpoint"), op := self
        payloadBuilt := payload, issued := [] }

/-! ## Helper lemmas -/

theorem charUpper_idem (c : Char) : c.toUpper.toUpper = c.toUpper := by
  unfold Char.toUpper
  by_cases h : c.toNat ≥ 97 ∧ c.toNat ≤ 122
  · rw [if_pos h]
    obtain ⟨h1, h2⟩ := h
    set n := c.toNat with hn
    clear_value n
    interval_cases n <;> decide
  · rw [if_neg h, if_neg h]

theorem pyUpper_idem (s : String) : pyUpper (pyUpper s) = pyUpper s := by
  simp only [pyUpper, List.map_map, Function.comp]
  apply congrArg
  apply List.map_congr_left
  exact fun c _ => charUpper_idem c

theorem pyUpper_eq_toUpper (s : String) : pyUpper s = s.toUpper := by
  rw [String.toUpper, String.map_eq]
  rfl

/-! ## Claim theorems -/

/-- C1: for every raw status string, resolution after upper-casing maps
QUEUED/RUNNING to StillRunning, COMPLETED to Succeeded, PENDING to the
terminal failure "pending and needs to be started", ABORTED/FAILED to the
terminal failure "did not finish", and everything else to the terminal
failure "unhandled job state". -/
theorem resolve_status_table (s : String) :
    resolve s =
      (if pyUpper s = "QUEUED" ∨ pyUpper s = "RUNNING" then
        PollOutcome.stillRunning
      else if pyUpper s = "COMPLETED" then PollOutcome.succeeded
      else if pyUpper s = "PENDING" then
        PollOutcome.failed "pending and needs to be started"
      else if pyUpper s = "ABORTED" ∨ pyUpper s = "FAILED" then
        PollOutcome.failed "did not finish"
      else PollOutcome.failed "unhandled job state") := by
  unfold resolve
  generalize pyUpper s = u
  unfold classifyStatus
  split_ifs <;> simp_all

/-- C8: status resolution is case-insensitive — resolving the upper-cased
form of a string gives the same outcome as resolving the string itself; in
particular "completed" and "COMPLETED" both resolve to Succeeded. -/
theorem resolve_case_insensitive (s : String) :
    resolve s.toUpper = resolve s ∧
    resolve "completed" = PollOutcome.succeeded ∧
    resolve "COMPLETED" = PollOutcome.succeeded := by
  refine ⟨?_, by decide, by decide⟩
  unfold resolve
  rw [← pyUpper_eq_toUpper, pyUpper_idem]

theorem pokeWithHeaders_sensor (s : CavaticaTaskSensor) (w : PokeWorld) :
    (pokeWithHeaders s w).sensor = s := by
  unfold pokeWithHeaders
  split
  · rfl
  · split
    · rfl
    · split <;> rfl

theorem pokeWithHeaders_issued (s : CavaticaTaskSensor) (w : PokeWorld) :
    (pokeWithHeaders s w).issued =
      [{ method := "GET"
         path := s.endpoint ++ s.cavatica_task_id
         headers := s.cavatica_headers }] := by
  unfold pokeWithHeaders
  split
  · rfl
  · split
    · rfl
    · split <;> rfl

/-- Sample sensor with no headers supplied (export/import default conn name,
default `/tasks/` endpoint). -/
def sensorNoHeaders : CavaticaTaskSensor :=
  CavaticaTaskSensor.init "task-1" "cavatica" [] "/tasks/"

/-- World in which the credential lookup throws. -/
def credFailWorld : PokeWorld :=
  { credential := .error "no connection"
    response := { ok := true, body := some (.obj [("status", .str "RUNNING")]) } }

/-- World in which the credential lookup succeeds and the task is running. -/
def credOkWorld : PokeWorld :=
  { credential := .ok "tok"
    response := { ok := true, body := some (.obj [("status", .str "RUNNING")]) } }

/-- C7: on a sensor whose stored header dict is empty, a failing credential
lookup makes `poke` raise the header-build error, and no HTTP request is
issued on that branch. -/
theorem headerBuild_failure_blocks_http (s : CavaticaTaskSensor) (w : PokeWorld)
    (e : String) (hh : s.cavatica_headers = []) (hc : w.credential = .error e) :
    (s.poke w).outcome =
      .error (.headerBuild
        ("Unable to generate headers using the cavatica_conn_id: " ++ e)) ∧
    (s.poke w).issued = [] := by
  simp [CavaticaTaskSensor.poke, hh, hc, buildHeaders]

/-- Witness for C7 at a concrete sensor and world. -/
theorem headerBuild_failure_blocks_http_witness :
    (sensorNoHeaders.poke credFailWorld).outcome =
      .error (.headerBuild
        ("Unable to generate headers using the cavatica_conn_id: " ++
          "no connection")) ∧
    (sensorNoHeaders.poke credFailWorld).issued = [] :=
  headerBuild_failure_blocks_http sensorNoHeaders credFailWorld "no connection"
    rfl rfl

theorem poke_sensor_notEmpty (s : CavaticaTaskSensor) (w : PokeWorld)
    (hh : s.cavatica_headers ≠ []) : (s.poke w).sensor = s := by
  unfold CavaticaTaskSensor.poke
  cases hl : s.cavatica_headers with
  | nil => exact absurd hl hh
  | cons a l => simp only [hl, List.isEmpty_cons, Bool.false_eq_true, if_false,
      pokeWithHeaders_sensor]

theorem poke_sensor_built (s : CavaticaTaskSensor) (w : PokeWorld) (t : String)
    (hh : s.cavatica_headers = []) (hc : w.credential = Except.ok t) :
    (s.poke w).sensor =
      { s with cavatica_headers :=
          [("Content-Type", "application/json"), ("X-SBG-Auth-Token", t)] } := by
  simp [CavaticaTaskSensor.poke, hh, hc, buildHeaders, pokeWithHeaders_sensor]

/-- C9: no stored field is mutated by a poll except the sensor's header map —
task id, connection name and endpoint are untouched; a poll on a sensor with a
nonempty header map leaves the sensor unchanged; a poll that finds the map
empty fills it with the built headers when the credential lookup succeeds and
leaves the sensor unchanged when it fails; once the map is nonempty any
subsequent poll leaves the whole sensor unchanged; and an operator's
`execute` mutates no operator field. -/
theorem poke_frame_condition (s : CavaticaTaskSensor) (w w' : PokeWorld) :
    ((s.poke w).sensor.cavatica_task_id = s.cavatica_task_id ∧
     (s.poke w).sensor.cavatica_conn_id = s.cavatica_conn_id ∧
     (s.poke w).sensor.endpoint = s.endpoint) ∧
    (s.cavatica_headers ≠ [] → (s.poke w).sensor = s) ∧
    (∀ t, s.cavatica_headers = [] → w.credential = Except.ok t →
      (s.poke w).sensor.cavatica_headers =
        [("Content-Type", "application/json"), ("X-SBG-Auth-Token", t)]) ∧
    (∀ e, s.cavatica_headers = [] → w.credential = Except.error e →
      (s.poke w).sensor = s) ∧
    ((s.poke w).sensor.cavatica_headers ≠ [] →
      ((s.poke w).sensor.poke w').sensor = (s.poke w).sensor) ∧
    (∀ (op : CavaticaStorageExportOperator) (wx : ExecWorld),
      (op.execute wx).op = op) ∧
    (∀ (iop : CavaticaStorageImportOperator) (wx : ExecWorld),
      (iop.execute wx).op = iop) := by
  refine ⟨?_, fun hh => poke_sensor_notEmpty s w hh,
          fun t hh hc => by rw [poke_sensor_built s w t hh hc],
          fun e hh hc => by simp [CavaticaTaskSensor.poke, hh, hc, buildHeaders],
          fun hne => poke_sensor_notEmpty _ w' hne,
          fun op wx => rfl, fun iop wx => rfl⟩
  by_cases hh : s.cavatica_headers = []
  · cases hc : w.credential with
    | error e => simp [CavaticaTaskSensor.poke, hh, hc, buildHeaders]
    | ok t => rw [poke_sensor_built s w t hh hc]; exact ⟨rfl, rfl, rfl⟩
  · rw [poke_sensor_notEmpty s w hh]; exact ⟨rfl, rfl, rfl⟩

/-- Witness for C9: the first poll on a header-less sensor builds the header
map; a poll whose credential lookup fails leaves the sensor unchanged. -/
theorem poke_frame_condition_witness :
    (sensorNoHeaders.poke credOkWorld).sensor.cavatica_headers =
      [("Content-Type", "application/json"), ("X-SBG-Auth-Token", "tok")] ∧
    (sensorNoHeaders.poke credFailWorld).sensor = sensorNoHeaders :=
  ⟨((poke_frame_condition sensorNoHeaders credOkWorld credOkWorld).2.2.1)
      "tok" rfl rfl,
   ((poke_frame_condition sensorNoHeaders credFailWorld credFailWorld).2.2.2.1)
      "no connection" rfl rfl⟩

/-- The endpoint argument with its trailing slash (if any) removed; used to
state that the normalized endpoint supplies exactly one separating slash. -/
def stripTrailingSlash (s : String) : String :=
  if endsWithSlash s then ⟨s.data.dropLast⟩ else s

theorem stripTrailingSlash_append_slash (s : String)
    (h : endsWithSlash s = true) : stripTrailingSlash s ++ "/" = s := by
  have h' : s.data.getLast? = some '/' := by
    simpa [endsWithSlash] using h
  have hl : s.data.dropLast ++ ['/'] = s.data :=
    List.dropLast_append_getLast? '/' (Option.mem_def.mpr h')
  unfold stripTrailingSlash
  rw [if_pos h]
  cases s with
  | mk l =>
    show String.mk (l.dropLast ++ ['/']) = String.mk l
    exact congrArg String.mk hl

theorem endsWithSlash_append_slash (s : String) :
    endsWithSlash (s ++ "/") = true := by
  unfold endsWithSlash
  rw [String.data_append]
  have hd : "/".data = ['/'] := rfl
  rw [hd, List.getLast?_concat]
  rfl

theorem poke_issued_path (s : CavaticaTaskSensor) (w : PokeWorld) :
    ∀ r ∈ (s.poke w).issued,
      r.method = "GET" ∧ r.path = s.endpoint ++ s.cavatica_task_id := by
  intro r hr
  unfold CavaticaTaskSensor.poke at hr
  split at hr
  · split at hr
    · simp at hr
    · rw [pokeWithHeaders_issued] at hr
      simp at hr
      subst hr
      exact ⟨rfl, rfl⟩
  · rw [pokeWithHeaders_issued] at hr
    simp at hr
    subst hr
    exact ⟨rfl, rfl⟩

/-- C10: the endpoint stored by the sensor's constructor always ends in `'/'`
— it is the argument itself when that already ends in `'/'`, and the argument
with `'/'` appended otherwise — and every GET issued by a poll targets the
stored endpoint immediately followed by the task id, i.e. the argument
(stripped of its trailing slash) then exactly one `'/'` then the task id. -/
theorem endpoint_normalization (tid conn ep : String)
    (hs : List (String × String)) (w : PokeWorld) :
    endsWithSlash (CavaticaTaskSensor.init tid conn hs ep).endpoint = true ∧
    (endsWithSlash ep = true →
      (CavaticaTaskSensor.init tid conn hs ep).endpoint = ep) ∧
    (endsWithSlash ep = false →
      (CavaticaTaskSensor.init tid conn hs ep).endpoint = ep ++ "/") ∧
    (∀ r ∈ ((CavaticaTaskSensor.init tid conn hs ep).poke w).issued,
      r.method = "GET" ∧ r.path = stripTrailingSlash ep ++ "/" ++ tid) := by
  have hep : (CavaticaTaskSensor.init tid conn hs ep).endpoint =
      if endsWithSlash ep then ep else ep ++ "/" := rfl
  have hkey : (CavaticaTaskSensor.init tid conn hs ep).endpoint =
      stripTrailingSlash ep ++ "/" := by
    rw [hep]
    cases h : endsWithSlash ep with
    | true =>
        rw [if_pos rfl]
        exact (stripTrailingSlash_append_slash ep h).symm
    | false =>
        rw [if_neg (by simp)]
        unfold stripTrailingSlash
        rw [if_neg (by simp [h])]
  refine ⟨by rw [hkey]; exact endsWithSlash_append_slash _,
          fun h => by rw [hep, if_pos h],
          fun h => by rw [hep, if_neg (by simp [h])],
          fun r hr => ?_⟩
  obtain ⟨hm, hp⟩ := poke_issued_path _ w r hr
  exact ⟨hm, by rw [hp, hkey]; rfl⟩

/-- Witness for C10 at a concrete endpoint without a trailing slash: the
stored endpoint gains the slash, and the GET issued by a poll targets the
endpoint followed by the task id with one separating slash. -/
theorem endpoint_normalization_witness :
    (CavaticaTaskSensor.init "job-2" "cavatica" [("k", "v")] "/tasks").endpoint =
      "/tasks" ++ "/" ∧
    ({ method := "GET", path := "/tasks/job-2", headers := [("k", "v")] } :
        HttpRequest).path = stripTrailingSlash "/tasks" ++ "/" ++ "job-2" := by
  refine ⟨(endpoint_normalization "job-2" "cavatica" "/tasks" [("k", "v")]
      credOkWorld).2.2.1 (by decide), ?_⟩
  exact ((endpoint_normalization "job-2" "cavatica" "/tasks" [("k", "v")]
      credOkWorld).2.2.2
      { method := "GET", path := "/tasks/job-2", headers := [("k", "v")] }
      (by decide)).2

theorem lookup_map_set (d : List (String × JValue)) (k : String) (v : JValue)
    (h : d.any (fun p => p.1 == k) = true) :
    (d.map (fun p => if p.1 == k then (p.1, v) else p)).lookup k = some v := by
  induction d with
  | nil => simp at h
  | cons p rest ih =>
    obtain ⟨k1, v1⟩ := p
    by_cases hp : k1 = k
    · simp [List.lookup_cons, hp]
    · have h' : rest.any (fun p => p.1 == k) = true := by
        simp [List.any_cons, hp] at h
        simpa using h
      have hb : (k == k1) = false := by
        simp
        exact fun he => hp he.symm
      simp [List.lookup_cons, hp, hb]
      simpa using ih h'

theorem lookup_append_single (d : List (String × JValue)) (k : String) (v : JValue)
    (h : d.any (fun p => p.1 == k) = false) :
    (d ++ [(k, v)]).lookup k = some v := by
  induction d with
  | nil => simp [List.lookup_cons]
  | cons p rest ih =>
    obtain ⟨k1, v1⟩ := p
    rw [List.any_cons] at h
    have h1 : (k1 == k) = false := by
      cases hb : (k1 == k) <;> simp [hb] at h ⊢
    have h2 : rest.any (fun p => p.1 == k) = false := by
      cases hb : rest.any (fun p => p.1 == k) <;> simp [hb] at h ⊢
    have hb : (k == k1) = false := by
      simp at h1 ⊢
      exact fun he => h1 he.symm
    simp [List.cons_append, List.lookup_cons, hb, ih h2]

theorem dictSet_lookup_self (d : List (String × JValue)) (k : String) (v : JValue) :
    (dictSet d k v).lookup k = some v := by
  unfold dictSet
  split
  · rename_i htrue
    exact lookup_map_set d k v htrue
  · rename_i hfalse
    have hfalse' : d.any (fun p => p.1 == k) = false := by
      cases hb : d.any (fun p => p.1 == k) with
      | false => rfl
      | true => exact absurd hb hfalse
    exact lookup_append_single d k v hfalse'

theorem lookup_map_set_other (d : List (String × JValue)) (k k' : String) (v : JValue)
    (hne : k ≠ k') :
    (d.map (fun p => if p.1 == k' then (p.1, v) else p)).lookup k = d.lookup k := by
  have hbne : (k == k') = false := by
    simp
    exact hne
  induction d with
  | nil => rfl
  | cons p rest ih =>
    obtain ⟨k1, v1⟩ := p
    by_cases hp : k1 = k'
    · simp [List.lookup_cons, hp, hbne]
      simpa using ih
    · by_cases hk : k = k1
      · simp [List.lookup_cons, hp, hk]
      · have hbk : (k == k1) = false := by
          simp
          exact hk
        simp [List.lookup_cons, hp, hbk]
        simpa using ih

theorem lookup_append_single_other (d : List (String × JValue)) (k k' : String)
    (v : JValue) (hne : k ≠ k') :
    (d ++ [(k', v)]).lookup k = d.lookup k := by
  have hbne : (k == k') = false := by
    simp
    exact hne
  induction d with
  | nil => simp [List.lookup_cons, hbne]
  | cons p rest ih =>
    obtain ⟨k1, v1⟩ := p
    by_cases hk : k = k1 <;> simp [List.cons_append, List.lookup_cons, hk, ih]

theorem dictSet_lookup_other (d : List (String × JValue)) (k k' : String)
    (v : JValue) (hne : k ≠ k') : (dictSet d k' v).lookup k = d.lookup k := by
  unfold dictSet
  split
  · exact lookup_map_set_other d k k' v hne
  · exact lookup_append_single_other d k k' v hne

theorem overlay_preserves (ofs : List (String × JValue))
    (d : List (String × JValue)) (k : String) (h : ∀ p ∈ ofs, p.1 ≠ k) :
    (ofs.foldl (fun acc kv => dictSet acc kv.1 kv.2) d).lookup k = d.lookup k := by
  induction ofs generalizing d with
  | nil => rfl
  | cons q rest ih =>
    rw [List.foldl_cons]
    rw [ih _ (fun p hp => h p (List.mem_cons_of_mem q hp))]
    exact dictSet_lookup_other d k q.1 q.2
      (fun he => (h q (List.mem_cons_self q rest)) he.symm)

theorem overlay_lookup_mem (ofs : List (String × JValue))
    (d : List (String × JValue)) (k : String) (v : JValue)
    (hnd : (ofs.map Prod.fst).Nodup) (hmem : (k, v) ∈ ofs) :
    (ofs.foldl (fun acc kv => dictSet acc kv.1 kv.2) d).lookup k = some v := by
  induction ofs generalizing d with
  | nil => cases hmem
  | cons q rest ih =>
    rw [List.map_cons, List.nodup_cons] at hnd
    rw [List.foldl_cons]
    rcases List.mem_cons.mp hmem with heq | hmem'
    · have hq : q = (k, v) := heq.symm
      subst hq
      have hk : ∀ p ∈ rest, p.1 ≠ k := by
        intro p hp he
        have h1 : p.1 ∈ rest.map Prod.fst := List.mem_map_of_mem Prod.fst hp
        rw [he] at h1
        exact hnd.1 h1
      rw [overlay_preserves rest _ k hk]
      exact dictSet_lookup_self d k v
    · exact ih (dictSet d q.1 q.2) hnd.2 hmem'

theorem overlayOptional_lookup_mem (d ofs : List (String × JValue)) (k : String)
    (v : JValue) (hnd : (ofs.map Prod.fst).Nodup) (hmem : (k, v) ∈ ofs) :
    (overlayOptional d ofs).lookup k = some v := by
  unfold overlayOptional
  cases ofs with
  | nil => cases hmem
  | cons q rest =>
      rw [if_neg (by simp)]
      exact overlay_lookup_mem (q :: rest) d k v hnd hmem

/-- C3: with optional fields `{"overwrite": true}` the export payload has
exactly the top-level keys `source`, `destination`, `overwrite` with
`overwrite` mapped to `true`; and for any optional-fields dict (keys are
distinct, as in a Python dict), every optional entry is written into the top
level of the payload — so an optional key equal to a required key shallowly
replaces the required entry (overlay wins, no deep merge) — for the export
and the import payload alike. -/
theorem payload_overlay_semantics (eop : CavaticaStorageExportOperator)
    (iop : CavaticaStorageImportOperator) :
    (eop.optional_fields = [("overwrite", JValue.bool true)] →
      eop.payload.map Prod.fst = ["source", "destination", "overwrite"] ∧
      eop.payload.lookup "overwrite" = some (JValue.bool true)) ∧
    (∀ k v, (eop.optional_fields.map Prod.fst).Nodup →
      (k, v) ∈ eop.optional_fields → eop.payload.lookup k = some v) ∧
    (∀ k v, (iop.optional_fields.map Prod.fst).Nodup →
      (k, v) ∈ iop.optional_fields → iop.payload.lookup k = some v) := by
  refine ⟨fun h => ?_,
    fun k v hnd hmem => overlayOptional_lookup_mem _ _ k v hnd hmem,
    fun k v hnd hmem => overlayOptional_lookup_mem _ _ k v hnd hmem⟩
  unfold CavaticaStorageExportOperator.payload
  rw [h]
  exact ⟨rfl, rfl⟩

/-- Export operator carrying the claim's example optional field. -/
def exportOpOverwrite : CavaticaStorageExportOperator :=
  { cavatica_conn_id := "cavatica"
    cavatica_headers := [("Content-Type", "application/json")]
    source_file_uri := "610aa71f2f5730089b081ea4"
    destination_volume := "volume/folder"
    destination_location := "/bams/example.bam"
    optional_fields := [("overwrite", JValue.bool true)] }

/-- Import operator whose optional field shadows the required `source` key. -/
def importOpSourceX : CavaticaStorageImportOperator :=
  { cavatica_conn_id := "cavatica"
    cavatica_headers := [("Content-Type", "application/json")]
    destination_parent_uri := "610aa71f2f5730089b081ea4"
    source_volume := "volume/folder"
    source_location := "/bams/example.bam"
    optional_fields := [("source", JValue.str "X")] }

/-- Witness for C3: the three-key example payload, and the shallow-overlay
example in which the optional `source` replaces the required nested one. -/
theorem payload_overlay_semantics_witness :
    exportOpOverwrite.payload.map Prod.fst =
      ["source", "destination", "overwrite"] ∧
    exportOpOverwrite.payload.lookup "overwrite" = some (JValue.bool true) ∧
    importOpSourceX.payload.lookup "source" = some (JValue.str "X") := by
  obtain ⟨h1, h2⟩ :=
    (payload_overlay_semantics exportOpOverwrite importOpSourceX).1 rfl
  exact ⟨h1, h2,
    (payload_overlay_semantics exportOpOverwrite importOpSourceX).2.2 "source"
      (JValue.str "X") (by simp [importOpSourceX]) (by simp [importOpSourceX])⟩

/-- Export operator with no optional fields, as in the end-to-end scenarios. -/
def exportOpPlain : CavaticaStorageExportOperator :=
  { cavatica_conn_id := "cavatica"
    cavatica_headers := [("Content-Type", "application/json"),
                         ("X-SBG-Auth-Token", "tok")]
    source_file_uri := "610aa71f2f5730089b081ea4"
    destination_volume := "volume/folder"
    destination_location := "/bams/example.bam"
    optional_fields := [] }

/-- Import operator with no optional fields, as in the end-to-end scenarios. -/
def importOpPlain : CavaticaStorageImportOperator :=
  { cavatica_conn_id := "cavatica"
    cavatica_headers := [("Content-Type", "application/json"),
                         ("X-SBG-Auth-Token", "tok")]
    destination_parent_uri := "610aa71f2f5730089b081ea4"
    source_volume := "volume/folder"
    source_location := "/bams/example.bam"
    optional_fields := [] }

/-- World for C2: the job-start POST, were it issued, would succeed and carry
an `id`. -/
def execWorldPost : ExecWorld :=
  { postResponse := { ok := true, body := some (.obj [("id", .str "job-1")]) }
    pollWorlds := [{ credential := .ok "tok"
                     response := { ok := true
                                   body := some (.obj [("status", .str "COMPLETED")]) } }]
    resultResponse := { ok := true, body := some (.obj []) } }

/-- C2 (code bug): the claim says the job-start POST is issued to
`/storage/exports` (export) / `/storage/imports` (import) and that a
non-success response fails `submit()` with a transport error.  In the code
the POST is never issued: `cavatica_storage_export_operator.py` line 212 and
`cavatica_storage_import_operator.py` line 320 pass `endpoint=endpoint`,
where the bare name `endpoint` is undefined in the method scope (the class
attribute is not visible as a bare name), so `execute` raises `NameError`
having issued no HTTP request at all. -/
theorem post_target_never_reached :
    (exportOpPlain.execute execWorldPost).outcome =
      .error (.nameError "endpoint") ∧
    (exportOpPlain.execute execWorldPost).issued = [] ∧
    (importOpPlain.execute execWorldPost).outcome =
      .error (.nameError "endpoint") ∧
    (importOpPlain.execute execWorldPost).issued = [] :=
  ⟨rfl, rfl, rfl, rfl⟩

/-- World for C4: POST would succeed and two poll ticks are available. -/
def execWorldSensor : ExecWorld :=
  { postResponse := { ok := true, body := some (.obj [("id", .str "job-7")]) }
    pollWorlds := [{ credential := .ok "tok"
                     response := { ok := true
                                   body := some (.obj [("status", .str "RUNNING")]) } },
                   { credential := .ok "tok"
                     response := { ok := true
                                   body := some (.obj [("status", .str "COMPLETED")]) } }]
    resultResponse := { ok := true, body := some (.obj []) } }

/-- C4 (code bug): the claim says a successful job-start POST is followed by
constructing a waiting sensor bound to the response's `id`, the same
connection and headers, the endpoint prefix `/storage/exports/` resp.
`/storage/imports/`, timeout 3600 and poll spacing 10.  `execute` raises
`NameError` on the bare `endpoint` at the POST line (212 / 320), so the
sensor construction (lines 217-225 / 325-333) is unreachable — and the export
variant would in addition pass the literal string endpoint (missing f-prefix
on line 222), not `/storage/exports/`. -/
theorem sensor_binding_never_reached :
    (exportOpPlain.execute execWorldSensor).outcome =
      .error (.nameError "endpoint") ∧
    (exportOpPlain.execute execWorldSensor).issued = [] ∧
    (importOpPlain.execute execWorldSensor).outcome =
      .error (.nameError "endpoint") ∧
    (importOpPlain.execute execWorldSensor).issued = [] :=
  ⟨rfl, rfl, rfl, rfl⟩

/-- World for C5 (the spec's end-to-end scenario 3): POST would return
`{"id":"job-2"}`, polling would end in COMPLETED, and the final GET would
return `{"result":{"id":"file-9"}}`. -/
def execWorldImportResult : ExecWorld :=
  { postResponse := { ok := true, body := some (.obj [("id", .str "job-2")]) }
    pollWorlds := [{ credential := .ok "tok"
                     response := { ok := true
                                   body := some (.obj [("status", .str "COMPLETED")]) } }]
    resultResponse :=
      { ok := true
        body := some (.obj [("result", .obj [("id", .str "file-9")])]) } }

/-- C5 (code bug): the claim says an import submission whose poll cycle ends
in Succeeded issues one additional GET to the job's detail endpoint and
returns `result.id` (here "file-9").  `execute` raises `NameError` on the
bare `endpoint` at line 320, before the POST, the polls, and the final GET
(lines 336-340), so no request is issued and nothing is returned. -/
theorem import_result_never_returned :
    (importOpPlain.execute execWorldImportResult).outcome =
      .error (.nameError "endpoint") ∧
    (importOpPlain.execute execWorldImportResult).outcome ≠ .ok "file-9" ∧
    (importOpPlain.execute execWorldImportResult).issued = [] :=
  ⟨rfl, fun h => Except.noConfusion h, rfl⟩

/-- World for C6 (the spec's end-to-end scenario 2): POST would return
`{"id":"job-1"}` and the first poll would report FAILED. -/
def execWorldFailedPoll : ExecWorld :=
  { postResponse := { ok := true, body := some (.obj [("id", .str "job-1")]) }
    pollWorlds := [{ credential := .ok "tok"
                     response := { ok := true
                                   body := some (.obj [("status", .str "FAILED")]) } }]
    resultResponse := { ok := true, body := some (.obj []) } }

/-- The sensor the export operator intends to construct for job "job-1"
(claim C6's scenario), and the poll world reporting FAILED. -/
def sensorJobOne : CavaticaTaskSensor :=
  CavaticaTaskSensor.init "job-1" "cavatica"
    [("Content-Type", "application/json"), ("X-SBG-Auth-Token", "tok")]
    "/storage/exports/"

/-- C6 (code bug): the claim says an export submission whose POST succeeds
with an `id` and whose first poll reports FAILED raises a fatal job-failure
error with no further polls.  A poll reporting FAILED is indeed a fatal
job-failure (third conjunct), but `execute` never gets there: it raises
`NameError` on the bare `endpoint` at line 212, before the POST and before
any poll. -/
theorem export_failed_first_poll_scenario :
    (exportOpPlain.execute execWorldFailedPoll).outcome =
      .error (.nameError "endpoint") ∧
    (exportOpPlain.execute execWorldFailedPoll).issued = [] ∧
    (sensorJobOne.poke { credential := .ok "tok"
                         response := { ok := true
                                       body := some (.obj [("status", .str "FAILED")]) } }).outcome =
      .error (.jobFailed "did not finish") :=
  ⟨rfl, rfl, rfl⟩
